import Mathlib

/-!
Shallow embedding of the chat slice of the kopa backend
(`app/routers/chat_websockets.py`, `app/routers/chat.py`, `app/models/chat.py`,
`app/utils.py`), together with proofs about the behaviour of those functions.

Conventions:
* WebSocket connections are identified by natural numbers.
* `datetime` values are modelled as natural-number clock ticks.
* A Python function that can raise is modelled with `Option`/`Except`; the
  `error` payload records what had already happened when the exception left
  the function.
-/

set_option autoImplicit false

namespace Kopa

/-- A live WebSocket connection, identified by a numeric handle. -/
abbrev Connection := Nat

/-- Clock values (`datetime` instants), as ticks. -/
abbrev DateTime := Nat

/-! ### `app/models/chat.py` -/

/-- `class Message(BaseModel)`: sender, content, timestamp. -/
structure Message where
  sender : String
  content : String
  timestamp : DateTime
deriving DecidableEq, Repr

/-- The default for `Message.timestamp` is the expression `datetime.now(UTC)`
written directly in the class body: pydantic evaluates it ONCE, when the module
is imported, and reuses that single value for every construction that omits
`timestamp`. It is a plain default value, not a `default_factory`. -/
def messageDefaultTimestamp (importTime : DateTime) : DateTime := importTime

/-- `Message(sender=s, content=c)` evaluated while the wall clock reads `_now`,
in a process whose `app.models.chat` module was imported while the clock read
`importTime`. The construction does not read the clock: the omitted
`timestamp` field is filled with the class-level default computed at import. -/
def mkMessage (importTime : DateTime) (sender content : String)
    (_now : DateTime) : Message :=
  { sender := sender, content := content
    timestamp := messageDefaultTimestamp importTime }

/-- `class ChatRoom(BaseModel)`: name, members, messages. -/
structure ChatRoom where
  name : String
  members : List String
  messages : List Message
deriving DecidableEq, Repr

/-! ### `ConnectionManager` (`app/routers/chat_websockets.py`, lines 11-24) -/

/-- `self.active_connections: List[WebSocket] = []`. -/
structure ConnectionManager where
  active_connections : List Connection
deriving DecidableEq, Repr

/-- `connect`: accept the socket and append it to `active_connections`. -/
def ConnectionManager.connect (m : ConnectionManager) (ws : Connection) :
    ConnectionManager :=
  { m with active_connections := m.active_connections ++ [ws] }

/-- `list.remove(x)` removes the first occurrence of `x`; it raises
`ValueError` when `x` is absent, modelled as `none`. -/
def removeFirst : List Connection → Connection → Option (List Connection)
  | [], _ => none
  | x :: xs, c => if x = c then some xs else (removeFirst xs c).map (x :: ·)

/-- `disconnect`: `self.active_connections.remove(websocket)`.  Raises
(returns `none`) when the socket is not registered. -/
def ConnectionManager.disconnect (m : ConnectionManager) (ws : Connection) :
    Option ConnectionManager :=
  (removeFirst m.active_connections ws).map
    (fun l => { active_connections := l })

/-- One run of `send_message`'s `for` loop over a list of connections, where
`fails c = true` means `c.send_text` raises.  The loop has no exception
handling: a raising send propagates immediately, so later connections are
never sent to.  The result records which connections actually received the
text: `ok delivered` when the loop finished, `error delivered` when a send
raised after `delivered` had been served. -/
def broadcastRun (fails : Connection → Bool) :
    List Connection → Except (List Connection) (List Connection)
  | [] => .ok []
  | c :: rest =>
    if fails c then .error []
    else
      match broadcastRun fails rest with
      | .ok delivered => .ok (c :: delivered)
      | .error delivered => .error (c :: delivered)

/-- `send_message(message)`: iterate `active_connections`, awaiting
`connection.send_text(message)` on each.  The manager itself is not modified:
in particular no connection is unregistered on failure. -/
def ConnectionManager.send_message (fails : Connection → Bool)
    (m : ConnectionManager) :
    Except (List Connection) (List Connection) :=
  broadcastRun fails m.active_connections

/-- The connections that received the text during a `send_message` run,
whether or not the run ended in an exception. -/
def deliveredOf : Except (List Connection) (List Connection) → List Connection
  | .ok l => l
  | .error l => l

/-- Whether a `send_message` run ended with an exception escaping it. -/
def raisedOf : Except (List Connection) (List Connection) → Bool
  | .ok _ => false
  | .error _ => true

/-! ### The `chatrooms` collection

A document database collection of rooms, keyed by the `_id` string.
`find_one({"_id": ...})` returns the first document with that id;
`update_one(..., {"$push": {field: v}})` appends `v` to that field of the
first matching document. -/

/-- `db['chatrooms'].find_one({"_id": ObjectId(rid)})`. -/
def find_one (rooms : List (String × ChatRoom)) (rid : String) :
    Option ChatRoom :=
  (rooms.find? (fun p => p.1 == rid)).map (fun p => p.2)

/-- `update_one({"_id": rid}, {"$push": {"members": u}})`. -/
def push_member (rid u : String) :
    List (String × ChatRoom) → List (String × ChatRoom)
  | [] => []
  | (k, r) :: rest =>
    if k == rid then (k, { r with members := r.members ++ [u] }) :: rest
    else (k, r) :: push_member rid u rest

/-- `update_one({"_id": rid}, {"$push": {"messages": m}})`. -/
def push_message (rid : String) (m : Message) :
    List (String × ChatRoom) → List (String × ChatRoom)
  | [] => []
  | (k, r) :: rest =>
    if k == rid then (k, { r with messages := r.messages ++ [m] }) :: rest
    else (k, r) :: push_message rid m rest

/-! ### `add_member_to_chatroom` (`app/routers/chat.py`, lines 119-148) -/

/-- `POST /{room_id}/add-member`.  Looks the room up, 404s if absent, pushes
the username only when it is not yet a member, then re-fetches and returns the
member list.  The result pairs the collection after the call with either the
HTTP error status or the returned member list; an error raised before any
update leaves the collection as it was. -/
def add_member_to_chatroom (rooms : List (String × ChatRoom))
    (room_id username : String) :
    List (String × ChatRoom) × Except Nat (List String) :=
  match find_one rooms room_id with
  | none => (rooms, .error 404)
  | some chatroom =>
    let rooms1 :=
      if username ∈ chatroom.members then rooms
      else push_member room_id username rooms
    match find_one rooms1 room_id with
    | some updated => (rooms1, .ok updated.members)
    | none => (rooms1, .error 500)

/-! ### `join_platoon_chat` (`app/routers/chat.py`, lines 151-217) -/

/-- Python's `str.isdigit()` restricted to the ASCII range the route's
`Query(..., regex=...)` admits for the final character (`\d`). -/
def pyIsDigit (c : Char) : Bool := 48 ≤ c.toNat && c.toNat ≤ 57

/-- The in-function format check, line 182:
`len(state_code) < 1 or not state_code[-1].isdigit()` raises 400. -/
def join_platoon_format_ok (state_code : List Char) : Bool :=
  !(state_code.length < 1) && pyIsDigit (state_code.getLastD ' ')

/-- Line 191: `platoon_number = int(state_code[-1])` — the final character
only, converted to its digit value. -/
def platoon_number (state_code : List Char) : Nat :=
  (state_code.getLastD ' ').toNat - 48

/-- The platoon-room selection part of `join_platoon_chat`: validate the
state code, compute the platoon number from its last character, range-check
it, and produce the chatroom name that is then looked up case-insensitively.
Errors are the HTTP statuses raised. -/
def join_platoon_chat (state_code : List Char) : Except Nat String :=
  if !join_platoon_format_ok state_code then .error 400
  else
    let n := platoon_number state_code
    if n < 1 || n > 10 then .error 400
    else .ok ("platoon " ++ toString n)

/-! ### `get_current_user` (`app/utils.py`, lines 69-90) -/

/-- The claims of a decoded JWT: `payload.get("email")`, `payload.get("id")`. -/
structure TokenPayload where
  email : Option String
  uid : Option String
deriving DecidableEq, Repr

/-- The fields of a `users` document that `get_current_user` touches. -/
structure UserRec where
  username : String
  is_verified : Bool
deriving DecidableEq, Repr

/-- `get_current_user`: decode the token (`none` models a `JWTError`, which
the `except` clause turns into a 401), 401 when email or id is missing from
the payload, then fetch the user by id and return it only when it exists and
`is_verified` is truthy.  When the user is absent or unverified, control
falls off the end of the function and Python returns `None` — no exception. -/
def get_current_user (decodeResult : Option TokenPayload)
    (findUser : String → Option UserRec) : Except Nat (Option UserRec) :=
  match decodeResult with
  | none => .error 401
  | some payload =>
    match payload.email, payload.uid with
    | some _, some uid =>
      (match findUser uid with
       | some user => if user.is_verified then .ok (some user) else .ok none
       | none => .ok none)
    | _, _ => .error 401

/-! ### WebSocket session (`app/routers/chat_websockets.py`, lines 29-90) -/

/-- The two ways a client can present the bearer credential on the opening
request of `GET /ws/{room_id}`. -/
structure WsRequest where
  queryToken : Option String
  authHeader : Option String
deriving DecidableEq, Repr

/-- Parameter resolution for `websocket_endpoint(websocket, room_id, token:
str = Query(...))`: the token is declared as a required query parameter, so
FastAPI reads it from the query string only and rejects the handshake when it
is missing; the `Authorization` header is never consulted. -/
def resolve_token (req : WsRequest) : Except Nat String :=
  match req.queryToken with
  | some t => .ok t
  | none => .error 403

/-- An observable output of the session: a text frame sent to one connection,
or a close frame with a close code. -/
inductive SendEvent where
  | direct (target : Connection) (payload : String)
  | close (target : Connection) (code : Nat)
deriving DecidableEq, Repr

/-- Line 76 / line 136 of the spec'd flow: `f"{msg['sender']}: {msg['content']}"`. -/
def fmt (m : Message) : String := m.sender ++ ": " ++ m.content

/-- Outcome of `get_current_user_from_token(token, db)`: the username on
success, or an `HTTPException` (caught at line 60 and turned into a
policy-violation close). -/
inductive AuthResult where
  | ok (username : String)
  | failed
deriving DecidableEq, Repr

/-- The mutable state the endpoint touches: the module-level `manager`'s
active connections and the `chatrooms` collection. -/
structure World where
  manager : List Connection
  rooms : List (String × ChatRoom)
deriving DecidableEq, Repr

/-- The `while True` receive loop (lines 79-88) driven by the list of text
payloads the client sends before disconnecting.  For each payload: construct
a `Message` (timestamp = the class default computed at import, see
`mkMessage`), broadcast the RAW payload via `manager.send_message(data)`,
then `$push` the message onto the room document.  A send failure inside the
broadcast raises an exception that is not `WebSocketDisconnect`, so it
escapes the loop and the `except` clause: the room is not updated for that
payload and `manager.disconnect` is never reached (`clean = false`).
Exhausting the payload list models the client disconnecting
(`WebSocketDisconnect`), handled by the `except` clause (`clean = true`).
Returns the updated collection, the frames sent, and the `clean` flag. -/
def sessionLoop (fails : Connection → Bool) (importTime : DateTime)
    (manager : List Connection) (room_id username : String) :
    List (String × ChatRoom) → List String →
    List (String × ChatRoom) × List SendEvent × Bool
  | rooms, [] => (rooms, [], true)
  | rooms, data :: rest =>
    let msg := mkMessage importTime username data importTime
    let res := broadcastRun fails manager
    let evs := (deliveredOf res).map (fun c => SendEvent.direct c data)
    match res with
    | .error _ => (rooms, evs, false)
    | .ok _ =>
      let rooms1 := push_message room_id msg rooms
      let (rooms2, evs', clean) :=
        sessionLoop fails importTime manager room_id username rooms1 rest
      (rooms2, evs ++ evs', clean)

/-- `websocket_endpoint` for one connection `ws` on `/ws/{room_id}`, after
FastAPI has resolved the `token` query parameter; `auth` is the outcome of
`get_current_user_from_token`.  Authentication failure and the combined
room-absent / not-a-member check each close the socket with
`WS_1008_POLICY_VIOLATION` and return without registering the connection.
Otherwise: `manager.connect(websocket)`, replay of the found room document's
stored messages to this socket only, then the receive loop; on
`WebSocketDisconnect` the socket is removed from the manager. -/
def websocket_endpoint (fails : Connection → Bool) (importTime : DateTime)
    (world : World) (ws : Connection) (room_id : String)
    (auth : AuthResult) (inbound : List String) : World × List SendEvent :=
  match auth with
  | .failed => (world, [SendEvent.close ws 1008])
  | .ok username =>
    match find_one world.rooms room_id with
    | none => (world, [SendEvent.close ws 1008])
    | some chatroom =>
      if username ∈ chatroom.members then
        let manager1 := world.manager ++ [ws]
        let replay := chatroom.messages.map
          (fun m => SendEvent.direct ws (fmt m))
        let (rooms1, evs, clean) :=
          sessionLoop fails importTime manager1 room_id username
            world.rooms inbound
        let manager2 :=
          if clean then
            match ConnectionManager.disconnect ⟨manager1⟩ ws with
            | some m => m.active_connections
            | none => manager1
          else manager1
        (⟨manager2, rooms1⟩, replay ++ evs)
      else (world, [SendEvent.close ws 1008])

/-! ## Helper lemmas -/

/-- When every connection before `f` succeeds and `f`'s send raises, the
broadcast delivers exactly to the connections before `f` and the exception
escapes; the connections after `f` are never reached. -/
theorem broadcastRun_error_prefix (fails : Connection → Bool)
    (pre post : List Connection) (f : Connection)
    (hpre : ∀ c ∈ pre, fails c = false) (hf : fails f = true) :
    broadcastRun fails (pre ++ f :: post) = .error pre := by
  induction pre with
  | nil => simp [broadcastRun, hf]
  | cons c rest ih =>
    have hc : fails c = false := hpre c (List.mem_cons_self c rest)
    have hrest : broadcastRun fails (rest ++ f :: post) = .error rest :=
      ih (fun x hx => hpre x (List.mem_cons_of_mem c hx))
    simp [broadcastRun, hc, hrest]

/-- Every connection a broadcast delivers to was registered. -/
theorem deliveredOf_subset (g : Connection → Bool) :
    ∀ l : List Connection, ∀ x ∈ deliveredOf (broadcastRun g l), x ∈ l := by
  intro l
  induction l with
  | nil => simp [broadcastRun, deliveredOf]
  | cons c rest ih =>
    intro x hx
    by_cases hc : g c
    · simp [broadcastRun, hc, deliveredOf] at hx
    · cases hb : broadcastRun g rest with
      | ok delivered =>
        simp [broadcastRun, hc, hb, deliveredOf] at hx
        rcases hx with rfl | hx
        · exact List.mem_cons_self x rest
        · exact List.mem_cons_of_mem c (ih x (by simp [hb, deliveredOf, hx]))
      | error delivered =>
        simp [broadcastRun, hc, hb, deliveredOf] at hx
        rcases hx with rfl | hx
        · exact List.mem_cons_self x rest
        · exact List.mem_cons_of_mem c (ih x (by simp [hb, deliveredOf, hx]))

/-- `removeFirst` on a list not containing the element raises (`none`). -/
theorem removeFirst_not_mem {l : List Connection} {c : Connection}
    (h : c ∉ l) : removeFirst l c = none := by
  induction l with
  | nil => rfl
  | cons x xs ih =>
    have hx : x ≠ c := fun hxc => h (hxc ▸ List.mem_cons_self x xs)
    have hc : c ∉ xs := fun hc => h (List.mem_cons_of_mem x hc)
    simp [removeFirst, hx, ih hc]

/-- `removeFirst` on a list containing the element succeeds and preserves
membership of every other element. -/
theorem removeFirst_mem {l : List Connection} {c : Connection} (h : c ∈ l) :
    ∃ l', removeFirst l c = some l' ∧
      ∀ c', c' ≠ c → (c' ∈ l' ↔ c' ∈ l) := by
  induction l with
  | nil => cases h
  | cons x xs ih =>
    by_cases hx : x = c
    · refine ⟨xs, by simp [removeFirst, hx], fun c' hc' => ?_⟩
      subst hx
      simp [List.mem_cons, hc']
    · have hc : c ∈ xs := by
        rcases List.mem_cons.mp h with rfl | h
        · exact absurd rfl hx
        · exact h
      obtain ⟨l', hl', hmem⟩ := ih hc
      refine ⟨x :: l', by simp [removeFirst, hx, hl'], fun c' hc' => ?_⟩
      simp [List.mem_cons, hmem c' hc']

/-- The frames a member's session sends: the replay of the room document's
stored messages, formatted and addressed to this socket, followed by the
receive loop's broadcast frames. -/
theorem websocket_endpoint_member_trace (fails : Connection → Bool)
    (importTime : DateTime) (world : World) (ws : Connection)
    (room_id username : String) (inbound : List String) (room : ChatRoom)
    (hroom : find_one world.rooms room_id = some room)
    (hmem : username ∈ room.members) :
    (websocket_endpoint fails importTime world ws room_id (.ok username)
        inbound).2
      = room.messages.map (fun m => SendEvent.direct ws (fmt m))
        ++ (sessionLoop fails importTime (world.manager ++ [ws]) room_id
              username world.rooms inbound).2.1 := by
  rcases hsl : sessionLoop fails importTime (world.manager ++ [ws]) room_id
      username world.rooms inbound with ⟨r1, evs, clean⟩
  simp [websocket_endpoint, hroom, hmem, hsl]

/-- Every frame the receive loop sends is a raw inbound payload broadcast to
some registered connection: no formatting is applied to live traffic. -/
theorem sessionLoop_events_raw (fails : Connection → Bool)
    (importTime : DateTime) (manager : List Connection)
    (room_id username : String) :
    ∀ (inbound : List String) (rooms : List (String × ChatRoom)),
      ∀ e ∈ (sessionLoop fails importTime manager room_id username rooms
              inbound).2.1,
        ∃ c data, data ∈ inbound ∧ c ∈ manager ∧
          e = SendEvent.direct c data := by
  intro inbound
  induction inbound with
  | nil =>
    intro rooms e he
    simp [sessionLoop] at he
  | cons d rest ih =>
    intro rooms e he
    cases hb : broadcastRun fails manager with
    | error delivered =>
      simp [sessionLoop, hb, deliveredOf] at he
      obtain ⟨c, hc, rfl⟩ := he
      exact ⟨c, d, by simp,
        deliveredOf_subset fails manager c (by simp [hb, deliveredOf, hc]),
        rfl⟩
    | ok delivered =>
      rcases hsl : sessionLoop fails importTime manager room_id username
          (push_message room_id (mkMessage importTime username d importTime)
            rooms) rest with ⟨r2, evs2, clean2⟩
      simp [sessionLoop, hb, deliveredOf, hsl] at he
      rcases he with ⟨c, hc, rfl⟩ | hrest
      · exact ⟨c, d, by simp,
          deliveredOf_subset fails manager c (by simp [hb, deliveredOf, hc]),
          rfl⟩
      · obtain ⟨c, data, hdata, hcm, rfl⟩ :=
          ih (push_message room_id
            (mkMessage importTime username d importTime) rooms) e
            (by simp [hsl, hrest])
        exact ⟨c, data, by simp [hdata], hcm, rfl⟩

/-- Pushing a member onto the room keyed `rid` updates exactly the document
`find_one` returns for `rid`. -/
theorem find_one_push_member (rid u : String) :
    ∀ rooms : List (String × ChatRoom),
      find_one (push_member rid u rooms) rid
        = (find_one rooms rid).map
            (fun r => { r with members := r.members ++ [u] }) := by
  intro rooms
  induction rooms with
  | nil => rfl
  | cons p rest ih =>
    obtain ⟨k, r⟩ := p
    by_cases hk : k == rid
    · simp [push_member, find_one, hk]
    · simpa [push_member, find_one, hk] using ih

/-! ## Claims -/

/-- C1 (counterexample): with connections `[0, 1, 2]` registered and the send
to connection `1` failing, `send_message` delivers only to connection `0`:
connection `2` (one of the "other N-1") is never sent to, and the exception
escapes the dispatcher (`error`); nothing unregisters connection `1`. -/
theorem C1_counterexample :
    ConnectionManager.send_message (fun c => c == 1) ⟨[0, 1, 2]⟩
      = .error [0] ∧
    raisedOf (ConnectionManager.send_message (fun c => c == 1) ⟨[0, 1, 2]⟩)
      = true ∧
    (2 : Connection) ∉
      deliveredOf (ConnectionManager.send_message (fun c => c == 1) ⟨[0, 1, 2]⟩) :=
  ⟨rfl, rfl, by decide⟩

/-- C1 (amended): when the send to connection `f` fails during a broadcast,
exactly the connections registered before `f` receive the text, the exception
escapes the dispatcher as an `error`, and in the receive loop that exception
(not being `WebSocketDisconnect`) aborts the session step without persisting
the message and without any unregistration (`clean = false`). -/
theorem C1_broadcast_failure (fails : Connection → Bool)
    (pre post : List Connection) (f : Connection) (importTime : DateTime)
    (room_id username : String) (rooms : List (String × ChatRoom))
    (data : String) (rest : List String)
    (hpre : ∀ c ∈ pre, fails c = false) (hf : fails f = true) :
    ConnectionManager.send_message fails ⟨pre ++ f :: post⟩ = .error pre ∧
    sessionLoop fails importTime (pre ++ f :: post) room_id username rooms
        (data :: rest)
      = (rooms, pre.map (fun c => SendEvent.direct c data), false) := by
  have h := broadcastRun_error_prefix fails pre post f hpre hf
  exact ⟨h, by simp [sessionLoop, h, deliveredOf]⟩

/-- C1 (witness): the amended behaviour at the concrete registry `[0, 1, 2]`
with the send to connection `1` failing. -/
theorem C1_broadcast_failure_witness :
    ConnectionManager.send_message (fun c => c == 1) ⟨[0] ++ 1 :: [2]⟩
      = .error [0] ∧
    sessionLoop (fun c => c == 1) 0 ([0] ++ 1 :: [2]) "r1" "alice" []
        ["hi"]
      = ([], [SendEvent.direct 0 "hi"], false) :=
  C1_broadcast_failure (fun c => c == 1) [0] [2] 1 0 "r1" "alice" [] "hi" []
    (by decide) (by decide)

/-- C3 (code bug): `Message.timestamp`'s default `datetime.now(UTC)` is
evaluated once at module import, so two messages constructed at clock times 5
and 9 (module imported at time 0) both carry timestamp 0 — equal timestamps,
neither equal to its construction time. -/
theorem C3_fixed_default_timestamp :
    (mkMessage 0 "alice" "hi" 5).timestamp = 0 ∧
    (mkMessage 0 "alice" "later" 9).timestamp = 0 ∧
    (mkMessage 0 "alice" "hi" 5).timestamp
      = (mkMessage 0 "alice" "later" 9).timestamp :=
  ⟨rfl, rfl, rfl⟩

/-- C4 (counterexample): unregistering a connection that was never registered
raises `ValueError` (`none`), and so does the second of two unregistrations
of the same connection. -/
theorem C4_counterexample :
    ConnectionManager.disconnect ⟨[]⟩ 0 = none ∧
    ConnectionManager.disconnect ⟨[5]⟩ 5 = some ⟨[]⟩ ∧
    ConnectionManager.disconnect ⟨[]⟩ 5 = none := by
  refine ⟨rfl, rfl, rfl⟩

/-- C4 (amended): `disconnect` raises (`none`) whenever the connection is not
in the active list — so unregistering a never-registered connection, or the
same connection twice, errors rather than being a no-op — while a successful
`disconnect` leaves every other connection's registration unchanged. -/
theorem C4_disconnect_behaviour (l : List Connection) (c : Connection) :
    (c ∉ l → ConnectionManager.disconnect ⟨l⟩ c = none) ∧
    (c ∈ l → ∃ m', ConnectionManager.disconnect ⟨l⟩ c = some m' ∧
      ∀ c', c' ≠ c → (c' ∈ m'.active_connections ↔ c' ∈ l)) := by
  constructor
  · intro h
    simp [ConnectionManager.disconnect, removeFirst_not_mem h]
  · intro h
    obtain ⟨l', hl', hmem⟩ := removeFirst_mem h
    exact ⟨⟨l'⟩, by simp [ConnectionManager.disconnect, hl'], hmem⟩

/-- C4 (witness): the amended behaviour at concrete registries: removing `5`
from `[7]` raises, removing `7` from `[5, 7]` succeeds and keeps `5`. -/
theorem C4_disconnect_behaviour_witness :
    ConnectionManager.disconnect ⟨[7]⟩ 5 = none ∧
    ∃ m', ConnectionManager.disconnect ⟨[5, 7]⟩ 7 = some m' ∧
      ∀ c', c' ≠ 7 → (c' ∈ m'.active_connections ↔ c' ∈ [5, 7]) :=
  ⟨(C4_disconnect_behaviour [7] 5).1 (by decide),
   (C4_disconnect_behaviour [5, 7] 7).2 (by decide)⟩

/-- C8 (code bug): the endpoint declares `token: str = Query(...)`, so the
bearer credential is read from the query string only.  A handshake that
carries the credential solely in an `Authorization: Bearer` header — exactly
what the repository's own `test.py` sends — is rejected before
authentication, while the query-parameter variant proceeds. -/
theorem C8_header_variant_rejected :
    resolve_token ⟨none, some "Bearer eyJhbGciOiJIUzI1NiJ9"⟩ = .error 403 ∧
    resolve_token ⟨some "tok", none⟩ = .ok "tok" :=
  ⟨rfl, rfl⟩

/-- C2 (confirmed): an authenticated identity that is not in the target
room's member list is closed with the policy-violation code 1008 and the
world is untouched — in particular the connection is never registered, so the
session never reaches the streaming phase and no frame is sent to it; and a
broadcast never delivers to a connection that is not registered, so no
message of any room ever reaches it. -/
theorem C2_nonmember_never_streams (fails : Connection → Bool)
    (importTime : DateTime) (world : World) (ws : Connection)
    (room_id username : String) (inbound : List String) (room : ChatRoom)
    (hroom : find_one world.rooms room_id = some room)
    (hmem : username ∉ room.members) :
    websocket_endpoint fails importTime world ws room_id (.ok username) inbound
      = (world, [SendEvent.close ws 1008]) ∧
    ∀ (g : Connection → Bool) (active : List Connection), ws ∉ active →
      ws ∉ deliveredOf (broadcastRun g active) := by
  constructor
  · simp [websocket_endpoint, hroom, hmem]
  · intro g active hws hdel
    exact hws (deliveredOf_subset g active ws hdel)

/-- C2 (witness): the concrete scenario — "bob" is not a member of the room,
his socket `7` is closed with 1008, the world is unchanged, and a broadcast
over the registry `[3]` (which does not contain `7`) does not deliver to
`7`. -/
theorem C2_nonmember_never_streams_witness :
    websocket_endpoint (fun _ => false) 0
        ⟨[3], [("r1", ⟨"general", ["alice"], []⟩)]⟩ 7 "r1" (.ok "bob") ["hi"]
      = (⟨[3], [("r1", ⟨"general", ["alice"], []⟩)]⟩,
         [SendEvent.close 7 1008]) ∧
    ∀ (g : Connection → Bool) (active : List Connection), 7 ∉ active →
      7 ∉ deliveredOf (broadcastRun g active) :=
  C2_nonmember_never_streams (fun _ => false) 0
    ⟨[3], [("r1", ⟨"general", ["alice"], []⟩)]⟩ 7 "r1" "bob" ["hi"]
    ⟨"general", ["alice"], []⟩ rfl (by decide)

/-- C5 (counterexample): "alice" (a member, socket 7) sends "hi" while
socket 3 is also registered; the live broadcast delivers the raw payload
"hi" to both sockets, not the formatted `fmt ⟨"alice", "hi", _⟩ = "alice: hi"`
the claim requires for every outbound payload. -/
theorem C5_counterexample :
    (websocket_endpoint (fun _ => false) 0
        ⟨[3], [("r1", ⟨"general", ["alice", "bob"], []⟩)]⟩ 7 "r1"
        (.ok "alice") ["hi"]).2
      = [SendEvent.direct 3 "hi", SendEvent.direct 7 "hi"] ∧
    "hi" ≠ fmt ⟨"alice", "hi", 0⟩ := by
  exact ⟨by decide, by decide⟩

/-- C5 (amended): only the history replay is formatted as
`"<sender>: <content>"`; every live-broadcast frame carries the raw received
payload unchanged (no sender prefix). -/
theorem C5_outbound_payloads (fails : Connection → Bool)
    (importTime : DateTime) (world : World) (ws : Connection)
    (room_id username : String) (inbound : List String) (room : ChatRoom)
    (hroom : find_one world.rooms room_id = some room)
    (hmem : username ∈ room.members) :
    ∃ live,
      (websocket_endpoint fails importTime world ws room_id (.ok username)
          inbound).2
        = room.messages.map (fun m => SendEvent.direct ws (fmt m)) ++ live ∧
      ∀ e ∈ live, ∃ c data, data ∈ inbound ∧
        e = SendEvent.direct c data := by
  refine ⟨_, websocket_endpoint_member_trace fails importTime world ws room_id
    username inbound room hroom hmem, fun e he => ?_⟩
  obtain ⟨c, data, hdata, _, rfl⟩ :=
    sessionLoop_events_raw fails importTime (world.manager ++ [ws]) room_id
      username inbound world.rooms e he
  exact ⟨c, data, hdata, rfl⟩

/-- C5 (witness): the amended statement at the concrete scenario of the
counterexample — replay of one stored message is formatted, the live frames
carry the raw "hi". -/
theorem C5_outbound_payloads_witness :
    ∃ live,
      (websocket_endpoint (fun _ => false) 0
          ⟨[3], [("r1", ⟨"general", ["alice", "bob"],
            [⟨"bob", "yo", 0⟩]⟩)]⟩ 7 "r1" (.ok "alice") ["hi"]).2
        = ([⟨"bob", "yo", 0⟩] : List Message).map
            (fun m => SendEvent.direct 7 (fmt m)) ++ live ∧
      ∀ e ∈ live, ∃ c data, data ∈ ["hi"] ∧
        e = SendEvent.direct c data :=
  C5_outbound_payloads (fun _ => false) 0
    ⟨[3], [("r1", ⟨"general", ["alice", "bob"], [⟨"bob", "yo", 0⟩]⟩)]⟩
    7 "r1" "alice" ["hi"] ⟨"general", ["alice", "bob"], [⟨"bob", "yo", 0⟩]⟩
    rfl (by decide)

/-- C6 (confirmed): for a member's session on a room whose stored sequence
decomposes as `l1 ++ m1 :: l2 ++ m2 :: l3`, the outbound trace starts with
the full stored sequence formatted and addressed to this socket only, with
`m1`'s line before `m2`'s, and all live traffic strictly after the replay. -/
theorem C6_history_replay_order (fails : Connection → Bool)
    (importTime : DateTime) (world : World) (ws : Connection)
    (room_id username : String) (inbound : List String) (room : ChatRoom)
    (l1 l2 l3 : List Message) (m1 m2 : Message)
    (hroom : find_one world.rooms room_id = some room)
    (hmem : username ∈ room.members)
    (hmsgs : room.messages = l1 ++ m1 :: (l2 ++ m2 :: l3)) :
    ∃ live,
      (websocket_endpoint fails importTime world ws room_id (.ok username)
          inbound).2
        = l1.map (fun m => SendEvent.direct ws (fmt m))
          ++ SendEvent.direct ws (fmt m1)
          :: (l2.map (fun m => SendEvent.direct ws (fmt m))
              ++ SendEvent.direct ws (fmt m2)
              :: (l3.map (fun m => SendEvent.direct ws (fmt m)) ++ live)) := by
  refine ⟨(sessionLoop fails importTime (world.manager ++ [ws]) room_id
    username world.rooms inbound).2.1, ?_⟩
  have h := websocket_endpoint_member_trace fails importTime world ws room_id
    username inbound room hroom hmem
  rw [h, hmsgs]
  simp [List.map_append, List.append_assoc]

/-- C6 (witness): a concrete replay — stored messages `bob: yo` then
`alice: ok` are replayed to socket 7 in that order before live traffic. -/
theorem C6_history_replay_order_witness :
    ∃ live,
      (websocket_endpoint (fun _ => false) 0
          ⟨[], [("r1", ⟨"general", ["alice"],
            [⟨"bob", "yo", 0⟩, ⟨"alice", "ok", 1⟩]⟩)]⟩ 7 "r1"
          (.ok "alice") []).2
        = ([] : List Message).map (fun m => SendEvent.direct 7 (fmt m))
          ++ SendEvent.direct 7 (fmt ⟨"bob", "yo", 0⟩)
          :: (([] : List Message).map (fun m => SendEvent.direct 7 (fmt m))
              ++ SendEvent.direct 7 (fmt ⟨"alice", "ok", 1⟩)
              :: (([] : List Message).map (fun m => SendEvent.direct 7 (fmt m))
                  ++ live)) :=
  C6_history_replay_order (fun _ => false) 0
    ⟨[], [("r1", ⟨"general", ["alice"],
      [⟨"bob", "yo", 0⟩, ⟨"alice", "ok", 1⟩]⟩)]⟩ 7 "r1" "alice" []
    ⟨"general", ["alice"], [⟨"bob", "yo", 0⟩, ⟨"alice", "ok", 1⟩]⟩
    [] [] [] ⟨"bob", "yo", 0⟩ ⟨"alice", "ok", 1⟩ rfl (by decide) rfl

/-- C7 (confirmed): `add_member_to_chatroom` is idempotent — a second call
with the same room and username reproduces the first call's state and
response exactly; it returns 404 leaving the collection untouched when the
room is absent; and after a call the username occurs at most once in the
member list (at most its prior count when it was already a member). -/
theorem C7_addMember_idempotent (rooms : List (String × ChatRoom))
    (rid username : String) :
    add_member_to_chatroom (add_member_to_chatroom rooms rid username).1 rid
        username
      = add_member_to_chatroom rooms rid username ∧
    (find_one rooms rid = none →
      add_member_to_chatroom rooms rid username = (rooms, .error 404)) ∧
    (∀ r0 r1, find_one rooms rid = some r0 →
      find_one (add_member_to_chatroom rooms rid username).1 rid = some r1 →
      r1.members.count username ≤ max 1 (r0.members.count username)) := by
  cases hr : find_one rooms rid with
  | none =>
    refine ⟨?_, fun _ => by simp [add_member_to_chatroom, hr], ?_⟩
    · simp [add_member_to_chatroom, hr]
    · intro r0 r1 h0
      cases h0
  | some r0 =>
    by_cases hmem : username ∈ r0.members
    · have hcall : add_member_to_chatroom rooms rid username
          = (rooms, .ok r0.members) := by
        simp [add_member_to_chatroom, hr, hmem]
      refine ⟨?_, ?_, ?_⟩
      · rw [hcall]
        exact hcall
      · intro h0
        cases h0
      · intro s0 s1 h0 h1
        cases h0
        have h1' : find_one rooms rid = some s1 := by
          rw [hcall] at h1
          exact h1
        rw [hr] at h1'
        cases h1'
        exact le_max_right 1 _
    · have hpush := find_one_push_member rid username rooms
      rw [hr] at hpush
      have hcall : add_member_to_chatroom rooms rid username
          = (push_member rid username rooms,
             .ok (r0.members ++ [username])) := by
        simp [add_member_to_chatroom, hr, hmem, hpush]
      have hmem' : username ∈ r0.members ++ [username] := by simp
      refine ⟨?_, ?_, ?_⟩
      · rw [hcall]
        simp [add_member_to_chatroom, hpush, hmem']
      · intro h0
        cases h0
      · intro s0 s1 h0 h1
        cases h0
        have h1' : find_one (push_member rid username rooms) rid
            = some s1 := by
          rw [hcall] at h1
          exact h1
        rw [hpush] at h1'
        simp at h1'
        rw [← h1']
        simp [List.count_append, List.count_eq_zero.mpr hmem]

/-- C7 (witness): idempotence, the 404 case and the count bound at concrete
inputs — adding "bob" twice to a room that holds "alice", and adding to an
empty collection. -/
theorem C7_addMember_idempotent_witness :
    add_member_to_chatroom
        (add_member_to_chatroom [("r1", ⟨"general", ["alice"], []⟩)] "r1"
          "bob").1 "r1" "bob"
      = add_member_to_chatroom [("r1", ⟨"general", ["alice"], []⟩)] "r1"
          "bob" ∧
    add_member_to_chatroom [] "r1" "bob" = ([], .error 404) ∧
    (⟨"general", ["alice", "bob"], []⟩ : ChatRoom).members.count "bob"
      ≤ max 1 ((⟨"general", ["alice"], []⟩ : ChatRoom).members.count "bob") :=
  ⟨(C7_addMember_idempotent [("r1", ⟨"general", ["alice"], []⟩)] "r1"
      "bob").1,
   (C7_addMember_idempotent [] "r1" "bob").2.1 rfl,
   (C7_addMember_idempotent [("r1", ⟨"general", ["alice"], []⟩)] "r1"
      "bob").2.2 ⟨"general", ["alice"], []⟩ ⟨"general", ["alice", "bob"], []⟩
      rfl rfl⟩

/-- C9 (confirmed): when the token decodes to a payload carrying both claims
but the referenced user is absent from the collection, or present with
`is_verified` false, `get_current_user` returns `None` (`ok none`) instead of
raising an Unauthorized error. -/
theorem C9_unknown_or_unverified_user (p : TokenPayload)
    (findUser : String → Option UserRec) (e uid : String)
    (he : p.email = some e) (hid : p.uid = some uid)
    (huser : findUser uid = none ∨
      ∃ u, findUser uid = some u ∧ u.is_verified = false) :
    get_current_user (some p) findUser = .ok none := by
  obtain ⟨pe, pu⟩ := p
  simp only at he hid
  subst he
  subst hid
  rcases huser with h | ⟨u, hu, hv⟩
  · simp [get_current_user, h]
  · simp [get_current_user, hu, hv]

/-- C9 (witness): a decodable token whose user id is unknown to the user
collection yields `ok none`. -/
theorem C9_unknown_or_unverified_user_witness :
    get_current_user (some ⟨some "a@b.c", some "u1"⟩) (fun _ => none)
      = .ok none :=
  C9_unknown_or_unverified_user ⟨some "a@b.c", some "u1"⟩ (fun _ => none)
    "a@b.c" "u1" rfl rfl (Or.inl rfl)

/-- C10 (confirmed): for every state code passing the in-function format
check, the platoon number is the digit value of the final character, hence at
most 9; a final digit `0` fails the 1-10 range check with a 400; and the
room name "platoon 10" can never be produced, despite the documented 1-10
range. -/
theorem C10_platoon_from_last_digit (s : List Char)
    (h : join_platoon_format_ok s = true) :
    platoon_number s ≤ 9 ∧
    (s.getLastD ' ' = '0' → join_platoon_chat s = .error 400) ∧
    join_platoon_chat s ≠ .ok "platoon 10" := by
  have hd : pyIsDigit (s.getLastD ' ') = true := by
    simp [join_platoon_format_ok, pyIsDigit] at h ⊢
    omega
  have hbounds : 48 ≤ (s.getLastD ' ').toNat ∧ (s.getLastD ' ').toNat ≤ 57 := by
    simpa [pyIsDigit] using hd
  have h9 : platoon_number s ≤ 9 := by
    unfold platoon_number
    omega
  refine ⟨h9, ?_, ?_⟩
  · intro h0
    have hz : platoon_number s = 0 := by
      unfold platoon_number
      rw [h0]
      rfl
    simp [join_platoon_chat, h, hz]
  · intro hok
    rcases Nat.lt_or_ge (platoon_number s) 1 with h1 | h1
    · have herr : join_platoon_chat s = .error 400 := by
        simp [join_platoon_chat, h, h1]
      rw [herr] at hok
      cases hok
    · have hc1 : ¬ platoon_number s < 1 := by omega
      have hc2 : ¬ platoon_number s > 10 := by omega
      have hjoin : join_platoon_chat s
          = .ok ("platoon " ++ toString (platoon_number s)) := by
        simp [join_platoon_chat, h, hc1, hc2]
      rw [hjoin] at hok
      have key : ∀ n : Nat, 1 ≤ n → n ≤ 9 →
          "platoon " ++ toString n ≠ "platoon 10" := by
        intro n hn1 hn9
        interval_cases n <;> decide
      exact key (platoon_number s) h1 h9 (Except.ok.inj hok)

/-- C10 (witness): the concrete state code "AB/12C/1230" passes the format
check, its platoon number 0 fails the range check with a 400, and no accepted
code reaches "platoon 10". -/
theorem C10_platoon_from_last_digit_witness :
    platoon_number "AB/12C/1230".data ≤ 9 ∧
    ("AB/12C/1230".data.getLastD ' ' = '0' →
      join_platoon_chat "AB/12C/1230".data = .error 400) ∧
    join_platoon_chat "AB/12C/1230".data ≠ .ok "platoon 10" :=
  C10_platoon_from_last_digit "AB/12C/1230".data (by decide)

end Kopa
